import Mathlib

/-
Verification of the affine-transform core of sitk-registration-sys.

The Rust sources embedded here are src/lib.rs (the `Transform` type and its
operations) and src/sys.rs (the pixel-type registry and the adapter that
dispatches registration / interpolation calls to the external SimpleITK
engine).  Modelling conventions:

* `f64` values are modelled as exact rationals (ℚ).  Every concrete input
  used in a theorem below is a small dyadic value on which the Rust `f64`
  arithmetic is exact, so the rational model agrees with the binary64
  computation at those points.  The one place where IEEE-754 semantics
  (NaN, signed zero) is itself the subject of a claim — the `PartialEq`
  implementation — uses a dedicated refined scalar type `Fp` instead.
* `usize` values are natural numbers; the `usize` subtractions performed by
  the code are modelled with release-mode wrapping semantics (`usizeSub`,
  reduction modulo 2^64), which is where they differ from mathematical
  subtraction.
* The external engine entry points (`register_u8` …, `interp_u8` …) live in
  C++ sources that are not part of src/; they are taken as opaque function
  parameters, and where a claim depends on their contract the contract is
  modelled from the specification (see `specEngineInterp`).
* The in-place mutation performed by `adapt` is modelled by returning the
  updated value.
-/

namespace Sitk

/-- The pixel types accepted by the library: the twelve `impl PixelType for …`
instances generated by the `sitk_impl!` macro in src/lib.rs and src/sys.rs,
on a 64-bit target (`target_pointer_width = "64"`). -/
inductive PixelTy
  | u8 | i8 | u16 | i16 | u32 | i32 | u64 | i64 | usize | isize | f32 | f64
deriving DecidableEq, Fintype

/-- The associated constant `T::PT` of each `PixelType` impl (src/lib.rs
lines 28–48 and src/sys.rs lines 79–99; the 64-bit cfg gives `usize` the code
of `u64` and `isize` the code of `i64`). -/
def PixelTy.pt : PixelTy → ℕ
  | .u8 => 1
  | .i8 => 2
  | .u16 => 3
  | .i16 => 4
  | .u32 => 5
  | .i32 => 6
  | .u64 => 7
  | .i64 => 8
  | .usize => 7
  | .isize => 8
  | .f32 => 9
  | .f64 => 10

/-- A 3×3 matrix of rationals, mirroring the `Array2<f64>` of shape (3,3)
built by `Transform::matrix`; `aIJ` is the entry `m[[I, J]]` (row `I`,
column `J`). -/
structure Mat3 where
  a00 : ℚ
  a01 : ℚ
  a02 : ℚ
  a10 : ℚ
  a11 : ℚ
  a12 : ℚ
  a20 : ℚ
  a21 : ℚ
  a22 : ℚ
deriving DecidableEq

/-- Matrix product, mirroring ndarray's `.dot` on two 3×3 arrays. -/
def Mat3.dot (x y : Mat3) : Mat3 where
  a00 := x.a00 * y.a00 + x.a01 * y.a10 + x.a02 * y.a20
  a01 := x.a00 * y.a01 + x.a01 * y.a11 + x.a02 * y.a21
  a02 := x.a00 * y.a02 + x.a01 * y.a12 + x.a02 * y.a22
  a10 := x.a10 * y.a00 + x.a11 * y.a10 + x.a12 * y.a20
  a11 := x.a10 * y.a01 + x.a11 * y.a11 + x.a12 * y.a21
  a12 := x.a10 * y.a02 + x.a11 * y.a12 + x.a12 * y.a22
  a20 := x.a20 * y.a00 + x.a21 * y.a10 + x.a22 * y.a20
  a21 := x.a20 * y.a01 + x.a21 * y.a11 + x.a22 * y.a21
  a22 := x.a20 * y.a02 + x.a21 * y.a12 + x.a22 * y.a22

/-- Entrywise sum, mirroring ndarray's `+` on two 3×3 arrays. -/
def Mat3.add (x y : Mat3) : Mat3 where
  a00 := x.a00 + y.a00
  a01 := x.a01 + y.a01
  a02 := x.a02 + y.a02
  a10 := x.a10 + y.a10
  a11 := x.a11 + y.a11
  a12 := x.a12 + y.a12
  a20 := x.a20 + y.a20
  a21 := x.a21 + y.a21
  a22 := x.a22 + y.a22

/-- The 3×3 identity matrix. -/
def Mat3.one : Mat3 := ⟨1, 0, 0, 0, 1, 0, 0, 0, 1⟩

/-- The `Transform` struct of src/lib.rs lines 50–56:
`parameters: [f64; 6]`, `dparameters: [f64; 6]`, `origin: [f64; 2]`,
`shape: [usize; 2]`. -/
structure Transform where
  parameters : Fin 6 → ℚ
  dparameters : Fin 6 → ℚ
  origin : Fin 2 → ℚ
  shape : Fin 2 → ℕ
deriving DecidableEq

/-- `Transform::matrix` (src/lib.rs lines 217–233): the row-major 3×3 array
`[p0, p1, p4, p2, p3, p5, 0, 0, 1]`. -/
def Transform.matrix (t : Transform) : Mat3 :=
  ⟨t.parameters 0, t.parameters 1, t.parameters 4,
   t.parameters 2, t.parameters 3, t.parameters 5,
   0, 0, 1⟩

/-- `Transform::dmatrix` (src/lib.rs lines 236–252): same layout built from
`dparameters`. -/
def Transform.dmatrix (t : Transform) : Mat3 :=
  ⟨t.dparameters 0, t.dparameters 1, t.dparameters 4,
   t.dparameters 2, t.dparameters 3, t.dparameters 5,
   0, 0, 1⟩

/-- `impl Mul for Transform` (src/lib.rs lines 58–86):
`m = self.matrix().dot(&other.matrix())`,
`dm = self.dmatrix().dot(&other.matrix()) + self.matrix().dot(&other.dmatrix())`,
and the six result parameters are read from the entries
`[[0,0]], [[0,1]], [[1,0]], [[1,1]], [[2,0]], [[2,1]]` of `m` (resp. `dm`);
origin and shape are taken from the left operand. -/
def Transform.mul (s other : Transform) : Transform :=
  let m := s.matrix.dot other.matrix
  let dm := (s.dmatrix.dot other.matrix).add (s.matrix.dot other.dmatrix)
  { parameters := ![m.a00, m.a01, m.a10, m.a11, m.a20, m.a21]
    dparameters := ![dm.a00, dm.a01, dm.a10, dm.a11, dm.a20, dm.a21]
    origin := s.origin
    shape := s.shape }

/-- `Transform::new` (src/lib.rs lines 101–108): stores the fields verbatim
with `dparameters` zeroed. -/
def Transform.new (parameters : Fin 6 → ℚ) (origin : Fin 2 → ℚ) (shape : Fin 2 → ℕ) :
    Transform :=
  { parameters := parameters
    dparameters := fun _ => 0
    origin := origin
    shape := shape }

/-- `Transform::from_translation` (src/lib.rs lines 141–148). -/
def Transform.from_translation (translation : Fin 2 → ℚ) : Transform :=
  { parameters := ![1, 0, 0, 1, translation 0, translation 1]
    dparameters := fun _ => 0
    origin := fun _ => 0
    shape := fun _ => 0 }

/-- `Transform::is_unity` (src/lib.rs lines 168–170). -/
def Transform.is_unity (t : Transform) : Bool :=
  decide (t.parameters = ![1, 0, 0, 1, 0, 0])

/-- The local `fn det` of `Transform::inverse` (src/lib.rs lines 256–258)
applied to a 2×2 view with entries `a00 a01 / a10 a11`:
`a[[0,0]]*a[[1,1]] - a[[0,1]]*a[[1,0]]`. -/
def det2x2 (a00 a01 a10 a11 : ℚ) : ℚ := a00 * a11 - a01 * a10

/-- The determinant `d = det(m.slice(s![..2, ..2]))` computed by
`Transform::inverse` (src/lib.rs line 261). -/
def Transform.det (t : Transform) : ℚ :=
  det2x2 t.matrix.a00 t.matrix.a01 t.matrix.a10 t.matrix.a11

/-- The six parameters computed by `Transform::inverse` (src/lib.rs lines
265–272): signed 2×2 sub-determinants of `matrix()` over `d` — the slices
`s![1.., 1..]`, `s![..;2, 1..]`, `s![1.., ..;2]`, `s![..;2, ..;2]`,
`s![..2, 1..]`, `s![..2, ..;2]` pick the stated rows/columns of the 3×3
matrix. -/
def Transform.inverseParams (t : Transform) : Fin 6 → ℚ :=
  let m := t.matrix
  let d := t.det
  ![det2x2 m.a11 m.a12 m.a21 m.a22 / d,
    -(det2x2 m.a01 m.a02 m.a21 m.a22) / d,
    -(det2x2 m.a10 m.a12 m.a20 m.a22) / d,
    det2x2 m.a00 m.a02 m.a20 m.a22 / d,
    det2x2 m.a01 m.a02 m.a11 m.a12 / d,
    -(det2x2 m.a00 m.a02 m.a10 m.a12) / d]

/-- `Transform::inverse` (src/lib.rs lines 255–280): error when `d == 0`,
otherwise the parameters of `inverseParams` with `dparameters` zeroed and
origin/shape carried over. -/
def Transform.inverse (t : Transform) : Except String Transform :=
  if t.det = 0 then Except.error "transform matrix is not invertible"
  else
    Except.ok
      { parameters := t.inverseParams
        dparameters := fun _ => 0
        origin := t.origin
        shape := t.shape }

/-- Release-mode Rust `usize` subtraction `a - b`: wraps modulo 2^64 on
underflow (in a debug build the same expression panics). -/
def usizeSub (a b : ℕ) : ℕ := (((a : ℤ) - (b : ℤ)) % (2 ^ 64 : ℤ)).toNat

/-- `Transform::adapt` (src/lib.rs lines 283–289): the new origin is
`origin[i] + ((self.shape[i] - shape[i]) as f64) / 2` — note the subtraction
is performed on `usize` before the cast — and the stored shape is replaced.
The in-place mutation is modelled by returning the updated transform. -/
def Transform.adapt (t : Transform) (origin : Fin 2 → ℚ) (shape : Fin 2 → ℕ) :
    Transform :=
  { t with
    origin := ![origin 0 + (usizeSub (t.shape 0) (shape 0) : ℚ) / 2,
                origin 1 + (usizeSub (t.shape 1) (shape 1) : ℚ) / 2]
    shape := shape }

/-- A 2-D raster of element type `α`, mirroring ndarray's `ArrayView2`:
shape `[height, width]` plus the row-major element buffer produced by
flattening the view. -/
structure Image (α : Type) where
  height : ℕ
  width : ℕ
  data : List α
deriving DecidableEq

/-- The ten `interp_*` engine entry points declared in the
`unsafe extern "C"` block of src/sys.rs (lines 51–62). -/
inductive InterpEntry
  | iu8 | ii8 | iu16 | ii16 | iu32 | ii32 | iu64 | ii64 | if32 | if64
deriving DecidableEq

/-- The ten `register_*` engine entry points declared in the
`unsafe extern "C"` block of src/sys.rs (lines 38–49). -/
inductive RegisterEntry
  | ru8 | ri8 | ru16 | ri16 | ru32 | ri32 | ru64 | ri64 | rf32 | rf64
deriving DecidableEq

/-- The `match T::PT` arms of `interp` (src/sys.rs lines 113–215): codes 1–10
select a concrete entry point, and the `_ => {}` catch-all selects none. -/
def interpDispatch : ℕ → Option InterpEntry
  | 1 => some .iu8
  | 2 => some .ii8
  | 3 => some .iu16
  | 4 => some .ii16
  | 5 => some .iu32
  | 6 => some .ii32
  | 7 => some .iu64
  | 8 => some .ii64
  | 9 => some .if32
  | 10 => some .if64
  | _ => none

/-- The `match T::PT` arms of `register` (src/sys.rs lines 241–363): codes
1–10 select a concrete entry point, and the `_ => {}` catch-all selects
none. -/
def registerDispatch : ℕ → Option RegisterEntry
  | 1 => some .ru8
  | 2 => some .ri8
  | 3 => some .ru16
  | 4 => some .ri16
  | 5 => some .ru32
  | 6 => some .ri32
  | 7 => some .ru64
  | 8 => some .ri64
  | 9 => some .rf32
  | 10 => some .rf64
  | _ => none

/-- The behaviour of one external `interp_*` entry point: given width,
height, the six transform parameters, the origin and the copied image
buffer plus the `bspline_or_nn` flag, it rewrites the buffer in place
(modelled as returning the new buffer).  The C++ implementation is not part
of src/, so the function is kept opaque (a parameter of the callers). -/
def EngineInterp (α : Type) : Type :=
  ℕ → ℕ → (Fin 6 → ℚ) → (Fin 2 → ℚ) → List α → Bool → List α

/-- The behaviour of one external `register_*` entry point: given width,
height, the copied fixed and moving buffers and the `translation_or_affine`
flag, it writes six `f64` coefficients into the caller-supplied output
(modelled as returning them).  Opaque for the same reason as
`EngineInterp`. -/
def EngineRegister (α : Type) : Type :=
  ℕ → ℕ → List α → List α → Bool → (Fin 6 → ℚ)

/-- Modelled from the spec: the semantics of the engine's interpolation flag.
The flag and the resampling algorithms live in the C++ adapter, which is not
under src/; per §4.2 and §6 of the specification, "`useBspline=true` uses
smooth (B-spline) resampling; `false` uses nearest-neighbor".  The two
resampling algorithms themselves stay opaque (parameters `bspline` and
`nearest`). -/
def specEngineInterp {α : Type} (bspline nearest : List α → List α) : EngineInterp α :=
  fun _ _ _ _ image flag => if flag then bspline image else nearest image

/-- `interp` (src/sys.rs lines 101–220): the image view is flattened into a
contiguous buffer, the `match T::PT` dispatch hands the buffer to the engine
entry point for the pixel-type code (the catch-all arm leaves the buffer
untouched), and the mutated buffer is reshaped back to the original
height/width (`Array2::from_shape_vec`, an error if the length no longer
matches). -/
def interp {α : Type} (ty : PixelTy) (eng : EngineInterp α) (parameters : Fin 6 → ℚ)
    (origin : Fin 2 → ℚ) (image : Image α) (bspline_or_nn : Bool) :
    Except String (Image α) :=
  let im := image.data
  let im2 :=
    match interpDispatch ty.pt with
    | some _ => eng image.width image.height parameters origin im bspline_or_nn
    | none => im
  if im2.length = image.height * image.width then
    Except.ok ⟨image.height, image.width, im2⟩
  else Except.error "could not reshape interpolated buffer"

/-- `register` (src/sys.rs lines 222–386): the shape — taken from `fixed`
alone, with no comparison against `moving`'s shape — provides width and
height, both views are flattened into contiguous buffers, the `match T::PT`
dispatch hands both buffers to the engine entry point (the catch-all arm
leaves the output coefficients at their `vec![0.0; 6]` initial value), and
the call unconditionally returns `Ok` with the six coefficients, the origin
`[(shape[0]-1)/2, (shape[1]-1)/2]` and `fixed`'s shape. -/
def register {α : Type} (ty : PixelTy) (eng : EngineRegister α) (fixed moving : Image α)
    (translation_or_affine : Bool) :
    Except String ((Fin 6 → ℚ) × (Fin 2 → ℚ) × (Fin 2 → ℕ)) :=
  let height := fixed.height
  let width := fixed.width
  let fixedBuf := fixed.data
  let movingBuf := moving.data
  let transform : Fin 6 → ℚ :=
    match registerDispatch ty.pt with
    | some _ => eng width height fixedBuf movingBuf translation_or_affine
    | none => fun _ => 0
  Except.ok
    (transform,
     ![(usizeSub height 1 : ℚ) / 2, (usizeSub width 1 : ℚ) / 2],
     ![height, width])

/-- `Transform::register_affine` (src/lib.rs lines 111–123): wraps `register`
with `translation_or_affine = true` and zero `dparameters`. -/
def Transform.register_affine {α : Type} (ty : PixelTy) (eng : EngineRegister α)
    (fixed moving : Image α) : Except String Transform :=
  (register ty eng fixed moving true).map fun r =>
    { parameters := r.1, dparameters := fun _ => 0, origin := r.2.1, shape := r.2.2 }

/-- `Transform::register_translation` (src/lib.rs lines 126–138): wraps
`register` with `translation_or_affine = false` and zero `dparameters`. -/
def Transform.register_translation {α : Type} (ty : PixelTy) (eng : EngineRegister α)
    (fixed moving : Image α) : Except String Transform :=
  (register ty eng fixed moving false).map fun r =>
    { parameters := r.1, dparameters := fun _ => 0, origin := r.2.1, shape := r.2.2 }

/-- `Transform::transform_image_bspline` (src/lib.rs lines 173–179): calls
`interp(self.parameters, self.origin, image, false)`. -/
def Transform.transform_image_bspline {α : Type} (t : Transform) (ty : PixelTy)
    (eng : EngineInterp α) (image : Image α) : Except String (Image α) :=
  interp ty eng t.parameters t.origin image false

/-- `Transform::transform_image_nearest_neighbor` (src/lib.rs lines 182–188):
calls `interp(self.parameters, self.origin, image, true)`. -/
def Transform.transform_image_nearest_neighbor {α : Type} (t : Transform) (ty : PixelTy)
    (eng : EngineInterp α) (image : Image α) : Except String (Image α) :=
  interp ty eng t.parameters t.origin image true

/-- A refined model of one `f64` value, used where the IEEE-754 equality
semantics of the code's `PartialEq` implementation is itself under scrutiny:
a value is NaN, negative zero, or an ordinary number (with `Fp.num 0` the
positive zero).  Constructor equality plays the role of bit-pattern
equality. -/
inductive Fp
  | nan
  | negZero
  | num (q : ℚ)
deriving DecidableEq

/-- The numeric value of a non-NaN `Fp` (both zeros compare as 0); the value
assigned to `nan` is irrelevant because `Fp.feq` never consults it. -/
def Fp.val : Fp → ℚ
  | .nan => 0
  | .negZero => 0
  | .num q => q

/-- IEEE-754 `==` on two `f64` values: false whenever either side is NaN,
numeric comparison otherwise (so `-0.0 == 0.0` is true). -/
def Fp.feq (a b : Fp) : Bool :=
  match a, b with
  | .nan, _ => false
  | _, .nan => false
  | a, b => decide (a.val = b.val)

/-- The `Transform` struct with its `f64` fields refined to `Fp`, for the
`PartialEq` claim. -/
structure TransformF where
  parameters : Fin 6 → Fp
  dparameters : Fin 6 → Fp
  origin : Fin 2 → Fp
  shape : Fin 2 → ℕ
deriving DecidableEq

/-- `impl PartialEq for Transform` (src/lib.rs lines 88–95):
`self.parameters == other.parameters && self.dparameters == other.dparameters
&& self.origin == other.origin && self.shape == other.shape`, where the
`[f64; N]` comparisons are elementwise IEEE-754 `==` and the `[usize; 2]`
comparison is exact. -/
def TransformF.beq (a b : TransformF) : Bool :=
  decide (∀ i, (a.parameters i).feq (b.parameters i) = true) &&
  decide (∀ i, (a.dparameters i).feq (b.dparameters i) = true) &&
  decide (∀ i, (a.origin i).feq (b.origin i) = true) &&
  decide (a.shape = b.shape)

/-- An `Fp` value that is neither NaN nor a negative zero, i.e. one on which
IEEE-754 `==` and bit-pattern equality agree. -/
def Fp.ordinary (x : Fp) : Prop := x ≠ Fp.nan ∧ x ≠ Fp.negZero

/-- A transform none of whose sixteen `f64` fields is NaN or negative
zero. -/
def TransformF.ordinary (t : TransformF) : Prop :=
  (∀ i, (t.parameters i).ordinary) ∧ (∀ i, (t.dparameters i).ordinary) ∧
    (∀ i, (t.origin i).ordinary)

/-- Modelled from the spec: serialization of a `Transform`.  The on-disk
encoding is produced by the external `serde_yaml` crate (not part of this
repository) and §1/§6 of the specification scope it to a "structured record
dump/load" of the four fields; the dump is modelled as the flat
sixteen-number record `parameters (6), dparameters (6), origin (2),
shape (2)`. -/
def Transform.serialize (t : Transform) : List ℚ :=
  [t.parameters 0, t.parameters 1, t.parameters 2, t.parameters 3,
   t.parameters 4, t.parameters 5,
   t.dparameters 0, t.dparameters 1, t.dparameters 2, t.dparameters 3,
   t.dparameters 4, t.dparameters 5,
   t.origin 0, t.origin 1,
   (t.shape 0 : ℚ), (t.shape 1 : ℚ)]

/-- Modelled from the spec: deserialization of a `Transform` record
(`Transform::from_file` delegates the decoding to the external `serde_yaml`
crate).  A record that is not sixteen numbers, or whose two shape entries
are not non-negative integers, is a `SerializationFailure`. -/
def deserialize (l : List ℚ) : Except String Transform :=
  match l with
  | [p0, p1, p2, p3, p4, p5, d0, d1, d2, d3, d4, d5, o0, o1, s0, s1] =>
    if s0.den = 1 ∧ 0 ≤ s0.num ∧ s1.den = 1 ∧ 0 ≤ s1.num then
      Except.ok
        { parameters := ![p0, p1, p2, p3, p4, p5]
          dparameters := ![d0, d1, d2, d3, d4, d5]
          origin := ![o0, o1]
          shape := ![s0.num.toNat, s1.num.toNat] }
    else Except.error "malformed transform record"
  | _ => Except.error "malformed transform record"

/-- Eta rule for a six-entry vector literal. -/
theorem vec6_eta {α : Type} (f : Fin 6 → α) : ![f 0, f 1, f 2, f 3, f 4, f 5] = f := by
  funext i
  fin_cases i <;> rfl

/-- Eta rule for a two-entry vector literal. -/
theorem vec2_eta {α : Type} (f : Fin 2 → α) : ![f 0, f 1] = f := by
  funext i
  fin_cases i <;> rfl

/-- Entry 0 of a six-entry vector literal. -/
theorem vec6_app0 {α : Type} (a b c d e f : α) : ![a, b, c, d, e, f] 0 = a := rfl

/-- Entry 1 of a six-entry vector literal. -/
theorem vec6_app1 {α : Type} (a b c d e f : α) : ![a, b, c, d, e, f] 1 = b := rfl

/-- Entry 2 of a six-entry vector literal. -/
theorem vec6_app2 {α : Type} (a b c d e f : α) : ![a, b, c, d, e, f] 2 = c := rfl

/-- Entry 3 of a six-entry vector literal. -/
theorem vec6_app3 {α : Type} (a b c d e f : α) : ![a, b, c, d, e, f] 3 = d := rfl

/-- Entry 4 of a six-entry vector literal. -/
theorem vec6_app4 {α : Type} (a b c d e f : α) : ![a, b, c, d, e, f] 4 = e := rfl

/-- Entry 5 of a six-entry vector literal. -/
theorem vec6_app5 {α : Type} (a b c d e f : α) : ![a, b, c, d, e, f] 5 = f := rfl

/-- Entry 0 of a two-entry vector literal. -/
theorem vec2_app0 {α : Type} (a b : α) : ![a, b] 0 = a := rfl

/-- Entry 1 of a two-entry vector literal. -/
theorem vec2_app1 {α : Type} (a b : α) : ![a, b] 1 = b := rfl

/-- Claim C1: composition is supposed to read the product matrix
`a.matrix() · b.matrix()` back into the six-parameter layout, with the
translation of the result taken from the `(0,2)` and `(1,2)` entries of the
product.  The code instead reads entries `[[2,0]]` and `[[2,1]]` — the
constant bottom row — so every composition has zero translation: composing
the translation-by-(1,0) transform with the unity transform yields
translation parameter 0 although the product matrix has `(0,2)` entry 1,
and the result's matrix differs from the product matrix. -/
theorem mul_drops_translation :
    ((Transform.from_translation ![1, 0]).mul (Transform.from_translation ![0, 0])).parameters 4
        = 0 ∧
    ((Transform.from_translation ![1, 0]).matrix.dot
        (Transform.from_translation ![0, 0]).matrix).a02 = 1 ∧
    ((Transform.from_translation ![1, 0]).mul (Transform.from_translation ![0, 0])).matrix ≠
      (Transform.from_translation ![1, 0]).matrix.dot
        (Transform.from_translation ![0, 0]).matrix := by
  refine ⟨?_, ?_, fun h => ?_⟩
  · norm_num [Transform.mul, Transform.matrix, Transform.dmatrix, Transform.from_translation,
      Mat3.dot, Mat3.add, vec6_app0, vec6_app1, vec6_app2, vec6_app3, vec6_app4, vec6_app5,
      vec2_app0, vec2_app1]
  · norm_num [Transform.matrix, Transform.from_translation, Mat3.dot, vec6_app0, vec6_app1,
      vec6_app2, vec6_app3, vec6_app4, vec6_app5, vec2_app0, vec2_app1]
  · have h2 := congrArg Mat3.a02 h
    norm_num [Transform.mul, Transform.matrix, Transform.dmatrix, Transform.from_translation,
      Mat3.dot, Mat3.add, vec6_app0, vec6_app1, vec6_app2, vec6_app3, vec6_app4, vec6_app5,
      vec2_app0, vec2_app1] at h2

/-- A 2×2 fixed image used as a shape-mismatch input. -/
def fixedSmall : Image ℕ := ⟨2, 2, [0, 0, 0, 0]⟩

/-- A 3×3 moving image used as a shape-mismatch input. -/
def movingBig : Image ℕ := ⟨3, 3, [1, 1, 1, 1, 1, 1, 1, 1, 1]⟩

/-- Claim C3: `register` is supposed to return an explicit error when the
fixed and moving shapes differ.  The code contains no shape comparison at
all: called on a 2×2 fixed image and a 3×3 moving image it returns `Ok`
for every engine and flag, handing the engine the nine-element moving
buffer together with the 2×2 dimensions taken from the fixed image alone
(the moving buffer's length does not even match the claimed raster size). -/
theorem register_ignores_shape_mismatch (eng : EngineRegister ℕ) (b : Bool) :
    (∃ r, register PixelTy.u8 eng fixedSmall movingBig b = Except.ok r ∧
       r.1 = eng 2 2 fixedSmall.data movingBig.data b ∧ r.2.2 = ![2, 2]) ∧
    movingBig.data.length ≠ fixedSmall.height * fixedSmall.width := by
  exact ⟨⟨_, rfl, rfl, rfl⟩, by decide⟩

/-- Claim C4: with the engine flag semantics modelled from the spec —
`useBspline = true` selects B-spline resampling and `false` selects
nearest-neighbor — `transform_image_bspline`, which passes `false` to
`interp`, hands the image to the nearest-neighbor resampler, and
`transform_image_nearest_neighbor`, which passes `true`, hands it to the
B-spline resampler: the two public methods are cross-wired.  Evaluated here
with stub resamplers returning `[7]` (B-spline) and `[9]`
(nearest-neighbor) on a 1×1 image. -/
theorem transform_image_flags_crossed :
    (Transform.from_translation ![0, 0]).transform_image_bspline PixelTy.u8
        (specEngineInterp (fun _ => [7]) (fun _ => [9])) ⟨1, 1, [5]⟩ =
      Except.ok ⟨1, 1, [9]⟩ ∧
    (Transform.from_translation ![0, 0]).transform_image_nearest_neighbor PixelTy.u8
        (specEngineInterp (fun _ => [7]) (fun _ => [9])) ⟨1, 1, [5]⟩ =
      Except.ok ⟨1, 1, [7]⟩ := by
  constructor <;> rfl

/-- Claim C5 counterexample: the pixel-type registry is not injective — on a
64-bit target `usize` and `u64` are distinct supported types sharing code 7,
and `isize` and `i64` are distinct supported types sharing code 8. -/
theorem pixel_code_collision :
    PixelTy.usize.pt = PixelTy.u64.pt ∧ PixelTy.usize ≠ PixelTy.u64 ∧
    PixelTy.isize.pt = PixelTy.i64.pt ∧ PixelTy.isize ≠ PixelTy.i64 := by
  decide

/-- Claim C5 amended: every supported element type is mapped to a code in
1..=10, and the mapping is injective on the ten fixed-width types; the
platform-width types deliberately alias the code of the same-width
fixed-width type (`usize` ↦ 7, `isize` ↦ 8 on a 64-bit target). -/
theorem pixel_codes_amended :
    (∀ t : PixelTy, 1 ≤ t.pt ∧ t.pt ≤ 10) ∧
    (∀ a b : PixelTy, a ≠ PixelTy.usize → a ≠ PixelTy.isize →
      b ≠ PixelTy.usize → b ≠ PixelTy.isize → a.pt = b.pt → a = b) := by
  decide

/-- Witness for the amended claim C5 at concrete pixel types. -/
theorem pixel_codes_amended_witness :
    (1 ≤ PixelTy.f32.pt ∧ PixelTy.f32.pt ≤ 10) ∧ PixelTy.u8 = PixelTy.u8 :=
  ⟨pixel_codes_amended.1 PixelTy.f32,
   pixel_codes_amended.2 PixelTy.u8 PixelTy.u8 (by decide) (by decide) (by decide) (by decide)
     rfl⟩

/-- Claim C10: every pixel-type code `T::PT` lies in 1..=10, and on every
such code the `match T::PT` dispatch of both `interp` and `register` selects
a concrete engine entry point, so the silent `_ => {}` catch-all arm (which
would leave the buffer untransformed, resp. the coefficients all zero) is
unreachable. -/
theorem dispatch_total (t : PixelTy) :
    (1 ≤ t.pt ∧ t.pt ≤ 10) ∧
    (interpDispatch t.pt).isSome = true ∧ (registerDispatch t.pt).isSome = true := by
  cases t <;> decide

/-- On `b ≤ a < 2^64` the wrapping `usize` subtraction agrees with ordinary
subtraction. -/
theorem usizeSub_of_le {a b : ℕ} (hba : b ≤ a) (ha : a < 2 ^ 64) : usizeSub a b = a - b := by
  unfold usizeSub
  have h1 : ((a : ℤ) - (b : ℤ)) % 2 ^ 64 = (a : ℤ) - (b : ℤ) :=
    Int.emod_eq_of_lt (by omega) (by omega)
  rw [h1]
  omega

/-- Claim C2 counterexample: growing the shape does not produce the claimed
negative contribution.  On a transform of shape (2,2) adapted to origin
(0,0) and shape (3,3), the claim predicts new origin `0 + (2 − 3)/2 = −1/2`
per axis, but the `usize` subtraction `2 - 3` wraps (release build; a debug
build panics), giving origin `(2^64 − 1)/2` instead. -/
theorem adapt_growth_counterexample :
    ((Transform.new ![1, 0, 0, 1, 0, 0] ![0, 0] ![2, 2]).adapt ![0, 0] ![3, 3]).origin 0 =
      (2 ^ 64 - 1 : ℚ) / 2 ∧
    ((Transform.new ![1, 0, 0, 1, 0, 0] ![0, 0] ![2, 2]).adapt ![0, 0] ![3, 3]).origin 0 ≠
      0 + ((2 : ℚ) - 3) / 2 := by
  have hu : usizeSub 2 3 = 18446744073709551615 := by decide
  constructor <;>
    norm_num [Transform.adapt, Transform.new, hu, vec2_app0, vec2_app1]

/-- Claim C2 amended: for every transform and requested (origin, shape) with
the new shape at most the stored shape on each axis (the sub-region use the
operation is documented for) and the stored shape a valid `usize`, `adapt`
sets the new origin to `origin + (oldShape − newShape)/2` per axis and then
replaces the stored shape; when the new shape is larger on some axis the
`usize` subtraction underflows (wrapping in release builds, panicking in
debug builds) instead of contributing negatively. -/
theorem adapt_shrink_origin (t : Transform) (o : Fin 2 → ℚ) (s : Fin 2 → ℕ)
    (h0 : s 0 ≤ t.shape 0) (h1 : s 1 ≤ t.shape 1)
    (hb0 : t.shape 0 < 2 ^ 64) (hb1 : t.shape 1 < 2 ^ 64) :
    (t.adapt o s).origin 0 = o 0 + ((t.shape 0 : ℚ) - (s 0 : ℚ)) / 2 ∧
    (t.adapt o s).origin 1 = o 1 + ((t.shape 1 : ℚ) - (s 1 : ℚ)) / 2 ∧
    (t.adapt o s).shape = s := by
  refine ⟨?_, ?_, rfl⟩
  · simp only [Transform.adapt, vec2_app0]
    rw [usizeSub_of_le h0 hb0, Nat.cast_sub h0]
  · simp only [Transform.adapt, vec2_app1]
    rw [usizeSub_of_le h1 hb1, Nat.cast_sub h1]

/-- Witness for the amended claim C2: the spec's own example — shape
shrinking from (600,800) to (400,600) with requested origin (0,0) — gives
origin exactly (100, 100). -/
theorem adapt_shrink_origin_witness :
    ((Transform.new ![1, 0, 0, 1, 0, 0] ![0, 0] ![600, 800]).adapt ![0, 0] ![400, 600]).origin 0
        = 100 ∧
    ((Transform.new ![1, 0, 0, 1, 0, 0] ![0, 0] ![600, 800]).adapt ![0, 0] ![400, 600]).origin 1
        = 100 ∧
    ((Transform.new ![1, 0, 0, 1, 0, 0] ![0, 0] ![600, 800]).adapt ![0, 0] ![400, 600]).shape
        = ![400, 600] := by
  obtain ⟨ha, hb, hc⟩ := adapt_shrink_origin
    (Transform.new ![1, 0, 0, 1, 0, 0] ![0, 0] ![600, 800]) ![0, 0] ![400, 600]
    (by decide) (by decide) (by decide) (by decide)
  refine ⟨?_, ?_, hc⟩
  · rw [ha]; norm_num [Transform.new, vec2_app0, vec2_app1]
  · rw [hb]; norm_num [Transform.new, vec2_app0, vec2_app1]

/-- Claim C6: `inverse` returns the non-invertible error exactly when the
determinant `d = m00·m11 − m01·m10` of the 2×2 linear block is zero; for
every nonzero `d` — however small — it succeeds, and the returned transform
carries the closed-form 2×2-affine inverse (its matrix is a two-sided
inverse of the input's homogeneous matrix), zero `dparameters`, and the
input's origin and shape. -/
theorem inverse_characterization (t : Transform) :
    (t.det = 0 → t.inverse = Except.error "transform matrix is not invertible") ∧
    (t.det ≠ 0 →
      t.inverse = Except.ok ⟨t.inverseParams, fun _ => 0, t.origin, t.shape⟩ ∧
      (Transform.mk t.inverseParams (fun _ => 0) t.origin t.shape).matrix.dot t.matrix =
        Mat3.one ∧
      t.matrix.dot (Transform.mk t.inverseParams (fun _ => 0) t.origin t.shape).matrix =
        Mat3.one) := by
  constructor
  · intro h
    simp [Transform.inverse, h]
  · intro h
    have hd : t.parameters 0 * t.parameters 3 - t.parameters 1 * t.parameters 2 ≠ 0 := by
      simpa [Transform.det, Transform.matrix, det2x2] using h
    refine ⟨by simp [Transform.inverse, h], ?_, ?_⟩
    · simp only [Transform.matrix, Transform.inverseParams, Transform.det, det2x2, Mat3.dot,
        Mat3.one, vec6_app0, vec6_app1, vec6_app2, vec6_app3, vec6_app4, vec6_app5]
      rw [Mat3.mk.injEq]
      refine ⟨?_, ?_, ?_, ?_, ?_, ?_, ?_, ?_, ?_⟩ <;> field_simp <;> ring
    · simp only [Transform.matrix, Transform.inverseParams, Transform.det, det2x2, Mat3.dot,
        Mat3.one, vec6_app0, vec6_app1, vec6_app2, vec6_app3, vec6_app4, vec6_app5]
      rw [Mat3.mk.injEq]
      refine ⟨?_, ?_, ?_, ?_, ?_, ?_, ?_, ?_, ?_⟩ <;> field_simp <;> ring

/-- Witness for claim C6 at concrete transforms: one with the tiny but
nonzero determinant 10⁻¹², on which `inverse` succeeds, and one with
determinant exactly zero, on which it fails. -/
theorem inverse_characterization_witness :
    ((Transform.new ![1 / 1000000000000, 0, 0, 1, 0, 0] ![5, 6] ![7, 8]).det ≠ 0 ∧
     (Transform.new ![1 / 1000000000000, 0, 0, 1, 0, 0] ![5, 6] ![7, 8]).inverse =
       Except.ok
         ⟨(Transform.new ![1 / 1000000000000, 0, 0, 1, 0, 0] ![5, 6] ![7, 8]).inverseParams,
          fun _ => 0,
          (Transform.new ![1 / 1000000000000, 0, 0, 1, 0, 0] ![5, 6] ![7, 8]).origin,
          (Transform.new ![1 / 1000000000000, 0, 0, 1, 0, 0] ![5, 6] ![7, 8]).shape⟩) ∧
    ((Transform.new ![1, 2, 2, 4, 0, 0] ![0, 0] ![0, 0]).det = 0 ∧
     (Transform.new ![1, 2, 2, 4, 0, 0] ![0, 0] ![0, 0]).inverse =
       Except.error "transform matrix is not invertible") := by
  have h1 : (Transform.new ![1 / 1000000000000, 0, 0, 1, 0, 0] ![5, 6] ![7, 8]).det ≠ 0 := by
    norm_num [Transform.det, Transform.matrix, Transform.new, det2x2,
      vec6_app0, vec6_app1, vec6_app2, vec6_app3]
  have h2 : (Transform.new ![1, 2, 2, 4, 0, 0] ![0, 0] ![0, 0]).det = 0 := by
    norm_num [Transform.det, Transform.matrix, Transform.new, det2x2,
      vec6_app0, vec6_app1, vec6_app2, vec6_app3]
  exact ⟨⟨h1, ((inverse_characterization _).2 h1).1⟩, ⟨h2, (inverse_characterization _).1 h2⟩⟩

/-- IEEE-754 `==` implies equality on values that are neither NaN nor
negative zero. -/
theorem Fp.eq_of_feq {x y : Fp} (hx : x.ordinary) (hy : y.ordinary)
    (h : x.feq y = true) : x = y := by
  cases x <;> cases y <;> simp_all [Fp.feq, Fp.val, Fp.ordinary]

/-- IEEE-754 `==` is reflexive on non-NaN values. -/
theorem Fp.feq_self {x : Fp} (hx : x ≠ Fp.nan) : x.feq x = true := by
  cases x <;> simp_all [Fp.feq, Fp.val]

/-- A transform whose first parameter is NaN. -/
def tNanF : TransformF :=
  { parameters := ![Fp.nan, Fp.num 0, Fp.num 0, Fp.num 0, Fp.num 0, Fp.num 0]
    dparameters := fun _ => Fp.num 0
    origin := fun _ => Fp.num 0
    shape := fun _ => 0 }

/-- An all-positive-zero transform. -/
def tPosZeroF : TransformF :=
  { parameters := fun _ => Fp.num 0
    dparameters := fun _ => Fp.num 0
    origin := fun _ => Fp.num 0
    shape := fun _ => 0 }

/-- The all-positive-zero transform with its first parameter replaced by
negative zero: a different bit pattern that IEEE-754 `==` cannot see. -/
def tNegZeroF : TransformF :=
  { tPosZeroF with
    parameters := ![Fp.negZero, Fp.num 0, Fp.num 0, Fp.num 0, Fp.num 0, Fp.num 0] }

/-- Claim C7 counterexample: the `PartialEq` implementation compares the
`f64` fields with IEEE-754 `==`, which is not bit-pattern equality — a
transform containing NaN is unequal to itself (refuting "equal to itself
regardless of its field contents"), and two transforms differing only in
the sign of a zero compare equal although their bit patterns differ. -/
theorem transform_eq_not_bitwise :
    TransformF.beq tNanF tNanF = false ∧
    TransformF.beq tPosZeroF tNegZeroF = true ∧ tPosZeroF ≠ tNegZeroF := by
  refine ⟨?_, ?_, ?_⟩
  · have hnot : ¬ ∀ i : Fin 6, (tNanF.parameters i).feq (tNanF.parameters i) = true := by
      intro hall
      have h0 := hall 0
      simp [tNanF, Fp.feq, vec6_app0] at h0
    simp only [TransformF.beq, decide_eq_false hnot, Bool.false_and]
  · have h1 : ∀ i : Fin 6, (tPosZeroF.parameters i).feq (tNegZeroF.parameters i) = true := by
      intro i
      fin_cases i <;>
        simp [tPosZeroF, tNegZeroF, Fp.feq, Fp.val,
          vec6_app0, vec6_app1, vec6_app2, vec6_app3, vec6_app4, vec6_app5]
    have h2 : ∀ i : Fin 6, (tPosZeroF.dparameters i).feq (tNegZeroF.dparameters i) = true := by
      intro i
      simp [tPosZeroF, tNegZeroF, Fp.feq, Fp.val]
    have h3 : ∀ i : Fin 2, (tPosZeroF.origin i).feq (tNegZeroF.origin i) = true := by
      intro i
      simp [tPosZeroF, tNegZeroF, Fp.feq, Fp.val]
    simp only [TransformF.beq, Bool.and_eq_true, decide_eq_true_eq]
    exact ⟨⟨⟨h1, h2⟩, h3⟩, rfl⟩
  · intro h
    have h0 := congrFun (congrArg TransformF.parameters h) 0
    simp [tPosZeroF, tNegZeroF, vec6_app0] at h0

/-- Claim C7 amended: on transforms none of whose `f64` fields is NaN or a
negative zero, the `PartialEq` comparison coincides with structural
(bit-pattern) equality of all four fields; in general IEEE-754 `==` makes a
NaN-carrying transform unequal to itself and identifies `+0.0` with
`−0.0`. -/
theorem transformf_eq_iff (a b : TransformF) (ha : a.ordinary) (hb : b.ordinary) :
    TransformF.beq a b = true ↔ a = b := by
  obtain ⟨hap, hadp, hao⟩ := ha
  obtain ⟨hbp, hbdp, hbo⟩ := hb
  constructor
  · intro h
    simp only [TransformF.beq, Bool.and_eq_true, decide_eq_true_eq] at h
    obtain ⟨⟨⟨hp, hdp⟩, ho⟩, hs⟩ := h
    cases a
    cases b
    simp only [TransformF.mk.injEq]
    exact ⟨funext fun i => Fp.eq_of_feq (hap i) (hbp i) (hp i),
           funext fun i => Fp.eq_of_feq (hadp i) (hbdp i) (hdp i),
           funext fun i => Fp.eq_of_feq (hao i) (hbo i) (ho i),
           hs⟩
  · rintro rfl
    simp only [TransformF.beq, Bool.and_eq_true, decide_eq_true_eq]
    exact ⟨⟨⟨fun i => Fp.feq_self (hap i).1, fun i => Fp.feq_self (hadp i).1⟩,
            fun i => Fp.feq_self (hao i).1⟩, trivial⟩

/-- Witness for the amended claim C7 at a concrete NaN-free,
negative-zero-free transform. -/
theorem transformf_eq_iff_witness :
    TransformF.ordinary tPosZeroF ∧
    (TransformF.beq tPosZeroF tPosZeroF = true ↔ tPosZeroF = tPosZeroF) := by
  have hord : TransformF.ordinary tPosZeroF := by
    refine ⟨fun i => ⟨?_, ?_⟩, fun i => ⟨?_, ?_⟩, fun i => ⟨?_, ?_⟩⟩ <;> simp [tPosZeroF]
  exact ⟨hord, transformf_eq_iff tPosZeroF tPosZeroF hord hord⟩

/-- Claim C8: writing a transform as the structured sixteen-number record and
reading it back reproduces the transform exactly, all four fields
included. -/
theorem serialize_round_trip (t : Transform) : deserialize t.serialize = Except.ok t := by
  rcases t with ⟨p, dp, o, s⟩
  simp [Transform.serialize, deserialize, vec6_eta, vec2_eta]

end Sitk
